import Mathlib

/-!
Verification development for the PENTrack / pnTracker particle-tracking program.

The definitions below are a shallow embedding of the program's source
(`bahnen2005.c` and `src/main.cpp`).  Floating-point (`long double`) arithmetic
is modelled by exact rational arithmetic; calls into library routines that are
not part of the repository's sources here (`sqrtl`, the Mersenne-Twister
`mt_get_double`, the numerical integrator `BFodeintrk`, the coordinate
transformation `CylKartCoord`) are modelled as explicit function parameters, so
that every definition stays computable and every theorem's hypotheses pin the
behaviour of those parameters exactly where it matters.
-/

namespace PENTrack

/-- The constant `gravconst = 9.80665` (bahnen2005.c line 23). -/
def gravconst : ℚ := 980665 / 100000

/-- The constant `mu_nSI = 0.96623641e-26`, the neutron magnetic moment in J/T
(bahnen2005.c line 27). -/
def mu_nSI : ℚ := 96623641 / 10 ^ 34

/-- The constant `ele_e = 1.602176487E-19`, the elementary charge in SI units
(bahnen2005.c line 22). -/
def ele_e : ℚ := 1602176487 / 10 ^ 28

/-- The SI proton mass `1.672621637E-27` appearing in the initializer of `Qm0`
(bahnen2005.c line 22). -/
def m_pSIkg : ℚ := 1672621637 / 10 ^ 36

/-- The constant `Qm0 = 1.602176487E-19/1.672621637E-27`, the non-relativistic
charge-to-mass ratio of the proton (bahnen2005.c line 22).  It is the value
used by the proton branch of `derivs`; only the electron branch ever
reassigns `Qm0`. -/
def Qm0_proton : ℚ := ele_e / m_pSIkg

/-- The constant `tau = 885.7`, the neutron lifetime in seconds
(bahnen2005.c line 29). -/
def tauNeutron : ℚ := 8857 / 10

/-- The constant `c_0 = 299792458`, the speed of light (bahnen2005.c line 26). -/
def c_0 : ℚ := 299792458

/-- The neutron magnetic moment `mu_n = hfs * mu_nSI / ele_e` in eV/T, as set
from the discrete spin state `hfs` in `IntegrateParticle`
(bahnen2005.c lines 736-750). -/
def mu_n_of (hfs : ℤ) : ℚ := (hfs : ℚ) * mu_nSI / ele_e

/-- The magnetic moment per unit mass `mumB = mu_n / M` as set in
`IntegrateParticle` (bahnen2005.c lines 742-749). -/
def mumB_of (hfs : ℤ) (M : ℚ) : ℚ := mu_n_of hfs / M

/-- The dynamical state vector `y[1..6]` of the trajectory integrator:
`y[1]=r`, `y[2]=dr/dt`, `y[3]=z`, `y[4]=dz/dt`, `y[5]=phi`, `y[6]=dphi/dt`
(cylindrical coordinates, see `derivs` in bahnen2005.c). -/
structure CylState where
  r : ℚ
  vr : ℚ
  z : ℚ
  vz : ℚ
  phi : ℚ
  vphi : ℚ
deriving DecidableEq

/-- The derivative vector `dydx[1..6]` produced by `derivs`. -/
structure CylDeriv where
  dr : ℚ
  dvr : ℚ
  dz : ℚ
  dvz : ℚ
  dphi : ℚ
  dvphi : ℚ
deriving DecidableEq

/-- The magnetic-field values consumed by `derivs`: the cylindrical components
`Br`, `Bphi`, `Bz` and the gradient of `|B|` (`dBdr`, `dBdphi`, `dBdz`),
global variables filled by `BFeld` (bahnen2005.c lines 33-34). -/
structure BFieldVals where
  Br : ℚ
  Bphi : ℚ
  Bz : ℚ
  dBdr : ℚ
  dBdphi : ℚ
  dBdz : ℚ
deriving DecidableEq

/-- The electric-field components `Er`, `Ephi`, `Ez` filled by `EFeld`
(bahnen2005.c line 35). -/
structure EFieldVals where
  Er : ℚ
  Ephi : ℚ
  Ez : ℚ
deriving DecidableEq

/-- The neutron branch of `derivs` (bahnen2005.c lines 657-674): straight
translation of

    dydx[1]= y[2];
    dydx[2]= y[1]*(y[6]*y[6])+mumB*dBdr;
    dydx[3]= y[4];
    dydx[4]= mumB*dBdz-gravconst;
    dydx[5]= y[6];
    dydx[6]= -2*y[2]*y[6]/y[1]+mumB/y[1]*dBdphi/y[1];
-/
def derivsNeutron (mumB : ℚ) (B : BFieldVals) (y : CylState) : CylDeriv :=
  { dr := y.vr
    dvr := y.r * (y.vphi * y.vphi) + mumB * B.dBdr
    dz := y.vz
    dvz := mumB * B.dBdz - gravconst
    dphi := y.vphi
    dvphi := -2 * y.vr * y.vphi / y.r + mumB / y.r * B.dBdphi / y.r }

/-- The common Lorentz-force shape of the proton and electron branches of
`derivs` (bahnen2005.c lines 675-693); both branches use literally these six
right-hand sides, with their respective value of `Qm0`:

    dydx[1]= y[2];
    dydx[2]= y[1]*(y[6]*y[6])+Qm0*(Bz*y[1]*y[6]-Bphi*y[4]+Er);
    dydx[3]= y[4];
    dydx[4]= Qm0*(Ez+Bphi*y[2]-y[1]*Br*y[6]);
    dydx[5]= y[6];
    dydx[6]= -2*y[2]*y[6]/y[1]+Qm0*(Ephi+Br*y[4]-Bz*y[2])/y[1];
-/
def derivsLorentz (Qm0 : ℚ) (B : BFieldVals) (E : EFieldVals) (y : CylState) : CylDeriv :=
  { dr := y.vr
    dvr := y.r * (y.vphi * y.vphi) + Qm0 * (B.Bz * y.r * y.vphi - B.Bphi * y.vz + E.Er)
    dz := y.vz
    dvz := Qm0 * (E.Ez + B.Bphi * y.vr - y.r * B.Br * y.vphi)
    dphi := y.vphi
    dvphi := -2 * y.vr * y.vphi / y.r + Qm0 * (E.Ephi + B.Br * y.vz - B.Bz * y.vr) / y.r }

/-- The proton branch of `derivs` (bahnen2005.c lines 675-683): the Lorentz
equations with the constant `Qm0`. -/
def derivsProton (B : BFieldVals) (E : EFieldVals) (y : CylState) : CylDeriv :=
  derivsLorentz Qm0_proton B E y

/-- The squared speed `y[2]*y[2]+y[1]*y[1]*y[6]*y[6]+y[4]*y[4]` recomputed by
the electron branch of `derivs` (bahnen2005.c line 686). -/
def speedSq (y : CylState) : ℚ :=
  y.vr * y.vr + y.r * y.r * y.vphi * y.vphi + y.vz * y.vz

/-- The effective charge-to-mass ratio recomputed by the electron branch of
`derivs` at every evaluation (bahnen2005.c line 686):

    Qm0 = -1.0/M*sqrtl(1-(y[2]*y[2]+y[1]*y[1]*y[6]*y[6]+y[4]*y[4])/(c_0*c_0));

`sqrtF` models the external `sqrtl` routine. -/
def electronQm0 (sqrtF : ℚ → ℚ) (M : ℚ) (y : CylState) : ℚ :=
  -1 / M * sqrtF (1 - speedSq y / (c_0 * c_0))

/-- The electron branch of `derivs` (bahnen2005.c lines 684-693): the Lorentz
equations with the relativistic `Qm0` recomputed from the current speed. -/
def derivsElectron (sqrtF : ℚ → ℚ) (M : ℚ) (B : BFieldVals) (E : EFieldVals)
    (y : CylState) : CylDeriv :=
  derivsLorentz (electronQm0 sqrtF M y) B E y

/-- Spec-side formula: the r-component of `v × B` for cylindrical velocity
components `(vr, r*vphi, vz)`. -/
def specCrossR (y : CylState) (B : BFieldVals) : ℚ :=
  y.r * y.vphi * B.Bz - y.vz * B.Bphi

/-- Spec-side formula: the phi-component of `v × B`. -/
def specCrossPhi (y : CylState) (B : BFieldVals) : ℚ :=
  y.vz * B.Br - y.vr * B.Bz

/-- Spec-side formula: the z-component of `v × B`. -/
def specCrossZ (y : CylState) (B : BFieldVals) : ℚ :=
  y.vr * B.Bphi - y.r * y.vphi * B.Br

/-! ## The brute-force Bloch spin integration, `BruteForceIntegration`
(bahnen2005.c lines 1172-1325), modelled as one transition per accepted
trajectory step.  The dense-output samples of the step (`xp`, `yp`, `Bp`
arrays, indices `1..kount`) are the input; the global variables touched by the
function form the state. -/

/-- One dense-output sample of an accepted trajectory step: the time `xp`,
the field components `Bp[1]` (Br), `Bp[5]` (Bphi), `Bp[9]` (Bz), the field
magnitude `Bp[13]` (Babs), and the position entries `yp[1]` (r), `yp[3]` (z),
`yp[5]` (phi) used by `BruteForceIntegration`. -/
structure BFSample where
  t : ℚ
  Br : ℚ
  Bphi : ℚ
  Bz : ℚ
  Babs : ℚ
  r : ℚ
  z : ℚ
  phi : ℚ
deriving DecidableEq

/-- One entry of the Bloch buffer `BFtime`/`BFField`: time, cartesian field
components, and position (bahnen2005.c lines 1238-1245). -/
structure BFEntry where
  t : ℚ
  Bx : ℚ
  By : ℚ
  Bz : ℚ
  r : ℚ
  z : ℚ
deriving DecidableEq

/-- The configuration and external routines consumed by
`BruteForceIntegration`.  `cylKart` models `CylKartCoord`, `blochPol` models
the net effect on `BFpol` of the `BFodeintrk` call followed by the projection
at the last sub-step (its first argument is the `firstint` flag, which decides
whether the spin is first re-initialized parallel to the field), `blochKount`
models the number `BFkount` of sub-steps the integrator records, and `rng`
models the `mt_get_double` stream (consumed by increasing index).  None of
these routines is part of the sources here. -/
structure BFParams where
  BFTargetB : ℚ
  flipspin : Bool
  spinOut : Bool
  M : ℚ
  cylKart : ℚ → ℚ → ℚ → ℚ → ℚ × ℚ × ℚ
  blochPol : Bool → List BFEntry → ℚ
  blochKount : Bool → List BFEntry → ℕ
  rng : ℕ → ℚ

/-- The global variables `BruteForceIntegration` reads and writes. -/
structure BFState where
  BFPolmin : Bool
  BFBmin : ℚ
  BFpol : ℚ
  BFsurvprob : ℚ
  BFflipprob : ℚ
  hfs : ℤ
  mu_n : ℚ
  mumB : ℚ
  NSF : ℕ
  firstint : Bool
  offset : ℤ
  buffer : List BFEntry
  BFZeilencount : ℤ
  rngIdx : ℕ

/-- Observable events of one `BruteForceIntegration` call: whether the step's
samples were appended to the Bloch buffer, whether a Bloch integration was
performed, whether the non-flip probability was accumulated, whether the
discrete spin label was flipped, and how many BF-log rows were written. -/
structure BFEvents where
  appended : Bool
  integrated : Bool
  accumulated : Bool
  flipped : Bool
  bfRows : ℕ
deriving DecidableEq

/-- The minimum of `Bp[13]` over the step's dense samples, computed exactly as
in bahnen2005.c lines 1184-1192: the running minimum starts from the sentinel
value 10. -/
def minB (samples : List BFSample) : ℚ :=
  samples.foldl (fun acc s => min acc s.Babs) 10

/-- The Bloch-buffer entry built from one dense sample
(bahnen2005.c lines 1238-1245): the field is rotated from cylindrical to
cartesian coordinates with `CylKartCoord`. -/
def toEntry (P : BFParams) (s : BFSample) : BFEntry :=
  { t := s.t
    Bx := (P.cylKart s.Br s.Bphi s.Bz s.phi).1
    By := (P.cylKart s.Br s.Bphi s.Bz s.phi).2.1
    Bz := (P.cylKart s.Br s.Bphi s.Bz s.phi).2.2
    r := s.r
    z := s.z }

/-- The start index `klaufstart` of the appending loop
(bahnen2005.c lines 1221-1226): 2 if the buffer already holds values,
1 otherwise. -/
def klaufstart (offset : ℤ) : ℕ := if offset > 0 then 2 else 1

/-- The buffer fill `offset` after the appending phase of one call
(bahnen2005.c lines 1219-1257): when the step's minimum field is below the
threshold, `kount - (klaufstart - 1)` entries are appended. -/
def bfOffsetAfterAppend (P : BFParams) (s : BFState) (samples : List BFSample) : ℤ :=
  if minB samples < P.BFTargetB then
    s.offset + (samples.length : ℤ) - ((klaufstart s.offset : ℤ) - 1)
  else s.offset

/-- The buffer contents after the appending phase of one call. -/
def bfBufferAfterAppend (P : BFParams) (s : BFState) (samples : List BFSample) :
    List BFEntry :=
  if minB samples < P.BFTargetB then
    s.buffer ++ (samples.drop (klaufstart s.offset - 1)).map (toEntry P)
  else s.buffer

/-- One call of `BruteForceIntegration` (bahnen2005.c lines 1172-1325),
returning the new global state and the observable events.  Line-by-line:
`BFPolmin` is set from the previous step's `BFBmin` (1176-1182), `BFBmin` is
recomputed over this step's samples (1184-1192), the non-flip probability is
accumulated and the spin label possibly flipped when the minimum has risen
above `BFTargetB` right after a below-threshold step (1194-1212), `firstint`
is raised when the minimum is above the threshold (1214-1217), the samples are
appended to the buffer when the minimum is below the threshold (1219-1258),
and the Bloch equation is integrated over the buffered interval when the
minimum is at least `BFTargetB` with at least 10 buffered values, or when the
buffer has reached 2000 values (1262-1323). -/
def bruteForceStep (P : BFParams) (s : BFState) (samples : List BFSample) :
    BFState × BFEvents :=
  let polmin : Bool := decide (s.BFBmin < P.BFTargetB)
  let newMin : ℚ := minB samples
  let accumulated : Prop := newMin > P.BFTargetB ∧ polmin = true
  let survprob1 : ℚ :=
    if newMin > P.BFTargetB ∧ polmin = true then (s.BFpol + 1 / 2) * s.BFsurvprob
    else s.BFsurvprob
  let flipprob1 : ℚ :=
    if newMin > P.BFTargetB ∧ polmin = true then 1 - survprob1 else s.BFflipprob
  let doFlip : Prop :=
    (newMin > P.BFTargetB ∧ polmin = true) ∧ P.flipspin = true ∧
      P.rng (s.rngIdx + 1) < 1 - (s.BFpol + 1 / 2)
  let rngIdx1 : ℕ :=
    if (newMin > P.BFTargetB ∧ polmin = true) ∧ P.flipspin = true then s.rngIdx + 2
    else s.rngIdx
  let hfs1 : ℤ := if doFlip then -s.hfs else s.hfs
  let mu1 : ℚ := if doFlip then (hfs1 : ℚ) * mu_nSI / ele_e else s.mu_n
  let mumB1 : ℚ := if doFlip then mu1 / P.M else s.mumB
  let NSF1 : ℕ := if doFlip then s.NSF + 1 else s.NSF
  let firstint1 : Bool := if newMin > P.BFTargetB then true else s.firstint
  let offset1 : ℤ := bfOffsetAfterAppend P s samples
  let buffer1 : List BFEntry := bfBufferAfterAppend P s samples
  let integrated : Prop := (newMin ≥ P.BFTargetB ∧ offset1 ≥ 10) ∨ offset1 ≥ 2000
  let pol2 : ℚ := if integrated then P.blochPol firstint1 buffer1 else s.BFpol
  let firstint2 : Bool := if integrated then false else firstint1
  let rows : ℕ :=
    if integrated ∧ P.spinOut = true then P.blochKount firstint1 buffer1 - 1 else 0
  let offset2 : ℤ := if integrated then 0 else offset1
  let buffer2 : List BFEntry := if integrated then [] else buffer1
  ({ BFPolmin := polmin
     BFBmin := newMin
     BFpol := pol2
     BFsurvprob := survprob1
     BFflipprob := flipprob1
     hfs := hfs1
     mu_n := mu1
     mumB := mumB1
     NSF := NSF1
     firstint := firstint2
     offset := offset2
     buffer := buffer2
     BFZeilencount := s.BFZeilencount + (rows : ℤ)
     rngIdx := rngIdx1 },
   { appended := decide (newMin < P.BFTargetB)
     integrated := decide integrated
     accumulated := decide accumulated
     flipped := decide doFlip
     bfRows := rows })

/-- The polarisation projection computed after a Bloch integration
(bahnen2005.c lines 1288-1294):
`BFpol = (I · B) / |B|` at the last recorded sub-step, with `babs` standing
for the value returned by `sqrtl` on the squared field magnitude. -/
def BFpolProjection (Ix Iy Iz Bx By Bz babs : ℚ) : ℚ :=
  (Ix * Bx + Iy * By + Iz * Bz) / babs

/-! ## Random-number seeding (bahnen2005.c lines 288-292) -/

/-- The Mersenne-Twister seed computed in `main` of bahnen2005.c:

    mytime = time(NULL);
    mt_set (v_mt_state,(unsigned long int) (((unsigned long int) mytime)+jobnumber));

modelled on the 64-bit unsigned range. -/
def bahnenSeed (mytime jobnumber : ℕ) : ℕ := (mytime + jobnumber) % 2 ^ 64

/-! ## Stop codes and the end-of-run summary (`OutputCodes`,
src/main.cpp lines 395-412) -/

/-- The meanings of the section-7 stop-code table. -/
inductive StopKind where
  | absorbedSurface
  | absorbedBulk
  | notCategorized
  | outOfTime
  | leftBoundary
  | integrationError
  | decayed
  | noInitialPosition
  | cgalError
  | geometryError
deriving DecidableEq

/-- The per-code summary lines printed by `OutputCodes`
(src/main.cpp lines 400-409), in print order, as pairs of the stop code and
the printf message suffix. -/
def outputCodesTable : List (Int × String) :=
  [(2, "were absorbed on a surface"),
   (1, "were absorbed in a material"),
   (0, "were not categorized"),
   (-1, "did not finish"),
   (-2, "hit outer boundaries"),
   (-3, "produced integration error"),
   (-4, "decayed"),
   (-5, "found no initial position"),
   (-6, "encountered CGAL error"),
   (-7, "encountered geometry error")]

/-- Spec-side table: the section-7 stop codes and their meanings. -/
def specStopTable : List (Int × StopKind) :=
  [(2, .absorbedSurface),
   (1, .absorbedBulk),
   (0, .notCategorized),
   (-1, .outOfTime),
   (-2, .leftBoundary),
   (-3, .integrationError),
   (-4, .decayed),
   (-5, .noInitialPosition),
   (-6, .cgalError),
   (-7, .geometryError)]

/-- Interpretation of the `OutputCodes` message strings as section-7 meanings. -/
def kindOfMessage (msg : String) : Option StopKind :=
  if msg = "were absorbed on a surface" then some .absorbedSurface
  else if msg = "were absorbed in a material" then some .absorbedBulk
  else if msg = "were not categorized" then some .notCategorized
  else if msg = "did not finish" then some .outOfTime
  else if msg = "hit outer boundaries" then some .leftBoundary
  else if msg = "produced integration error" then some .integrationError
  else if msg = "decayed" then some .decayed
  else if msg = "found no initial position" then some .noInitialPosition
  else if msg = "encountered CGAL error" then some .cgalError
  else if msg = "encountered geometry error" then some .geometryError
  else none

/-- Spec-side classification: error-like terminations versus physical
terminations (spec section 7: absorptions and uncategorized runs are the
physical, non-negative outcomes; everything else is error-like). -/
def errorLike : StopKind → Bool
  | .absorbedSurface => false
  | .absorbedBulk => false
  | .notCategorized => false
  | _ => true

/-! ## Command-line interface (src/main.cpp lines 78-101) -/

/-- The outcome of command-line processing: either the usage message with exit
code 0, or a run with the four settled parameters. -/
inductive CliOutcome where
  | usage : CliOutcome
  | run : ℤ → String → String → ℕ → CliOutcome
deriving DecidableEq

/-- Command-line processing of src/main.cpp lines 78-101, applied to
`argv[1..]`.  `readInt` and `readU64` model the `istringstream` extractions of
`jobnumber` and `seed`.  Defaults are `jobnumber = 0`, `inpath = "./in"`,
`outpath = "./out"`, `seed = 0`; a first argument `-h` short-circuits to the
usage message. -/
def parseCli (readInt : String → ℤ) (readU64 : String → ℕ)
    (args : List String) : CliOutcome :=
  match args with
  | [] => .run 0 "./in" "./out" 0
  | a1 :: rest =>
    if a1 = "-h" then .usage
    else
      .run (readInt a1)
        ((rest.get? 0).getD "./in")
        ((rest.get? 1).getD "./out")
        (match rest.get? 2 with
         | some s4 => readU64 s4
         | none => 0)

/-- Modelled from the spec: the seed handling of `TMCGenerator` (mc.h, not
among the sources here).  The spec's CLI contract says the default seed is
time-based, so a zero seed — the default left by `main` when no fourth
argument is supplied — is replaced by the wall-clock time. -/
def resolveSeed (seed wallclock : ℕ) : ℕ := if seed = 0 then wallclock else seed

/-- The process exit code of each CLI outcome: the usage branch calls
`exit(0)` (src/main.cpp line 81) and a completed run returns 0
(src/main.cpp line 241). -/
def cliExitCode : CliOutcome → ℤ
  | .usage => 0
  | .run _ _ _ _ => 0

/-- The exit values used on fatal errors in src/main.cpp: `exit(1)` in the
signal handler and `exit(-1)` on file-open and simtype failures. -/
def fatalExitValues : List ℤ := [1, -1]

/-! ## Output-file rollover (bahnen2005.c lines 1041-1075) -/

/-- The track-file rollover check run once per integration step
(bahnen2005.c lines 1041-1055): when the row counter exceeds 40000, the file
is closed, the file counter is incremented, a fresh header is written and the
row counter is reset to 1.  Returns (new row counter, new file counter,
whether a rollover with fresh header happened). -/
def trackRoll (zeilencount filecount : ℤ) : ℤ × ℤ × Bool :=
  if zeilencount > 40000 then (1, filecount + 1, true)
  else (zeilencount, filecount, false)

/-- The BF-log rollover check (bahnen2005.c lines 1057-1075): when the BF row
counter exceeds 100000 and brute-force mode is active, the BF file rolls to a
new numbered file with a fresh header and the counter is reset to 1. -/
def bfRoll (bruteForce : Bool) (bfZeilencount bfFilecount : ℤ) : ℤ × ℤ × Bool :=
  if bfZeilencount > 100000 ∧ bruteForce = true then (1, bfFilecount + 1, true)
  else (bfZeilencount, bfFilecount, false)

/-! ## Initial kinetic-energy check in `IntegrateParticle`
(bahnen2005.c lines 790-827) -/

/-- The parameter-scan loop variables of `main`
(bahnen2005.c lines 576-597). -/
structure ScanVars where
  Energie : ℚ
  z_n : ℚ
  r_n : ℚ
  alpha : ℚ
  gammaa : ℚ
  phi_n : ℚ
deriving DecidableEq

/-- The end values of the parameter-scan loops. -/
structure ScanEnds where
  EnergieE : ℚ
  z_ne : ℚ
  r_ne : ℚ
  alphae : ℚ
  gammae : ℚ
  phie : ℚ
deriving DecidableEq

/-- The outcome of the initial kinetic-energy check of `IntegrateParticle`. -/
structure StartResult where
  v_n : ℚ
  stopall : Bool
  earlyReturn : Bool
  endlogWritten : Bool
  ausgabewunsch : ℤ
  scan : ScanVars
deriving DecidableEq

/-- The initial kinetic energy computed for a neutron
(bahnen2005.c line 799):

    Ekin=Energie-M*gravconst*z_n+mu_n*Bws;
-/
def neutronEkin (M mu_n Energie z_n Bws : ℚ) : ℚ :=
  Energie - M * gravconst * z_n + mu_n * Bws

/-- The initial kinetic-energy check of `IntegrateParticle`
(bahnen2005.c lines 798-827).  With `Ekin >= 0` the speed
`v_n = powl(2.0/M*Ekin, 0.5)` is computed (`sqrtF` models `powl(., 0.5)`) and
integration proceeds, eventually writing the end-log record.  With
`Ekin < 0` the speed is zeroed, `stopall` is raised, `ausgabewunsch` is set
to 5, in Monte Carlo mode the variables `Energie`, `z_n`, `r_n`, `alpha` and
`gammaa` are forced past their end values (`phi_n` is left untouched), and
the function returns before any integration step and before the end-log
write. -/
def neutronStartCheck (sqrtF : ℚ → ℚ) (M mu_n : ℚ) (monteCarlo : Bool)
    (ausgabewunschsave : ℤ) (sv : ScanVars) (ends : ScanEnds) (Bws : ℚ) :
    StartResult :=
  let Ekin := neutronEkin M mu_n sv.Energie sv.z_n Bws
  if Ekin ≥ 0 then
    { v_n := sqrtF (2 / M * Ekin)
      stopall := false
      earlyReturn := false
      endlogWritten := true
      ausgabewunsch := ausgabewunschsave
      scan := sv }
  else
    { v_n := 0
      stopall := true
      earlyReturn := true
      endlogWritten := false
      ausgabewunsch := 5
      scan :=
        if monteCarlo = true then
          { sv with
            Energie := ends.EnergieE + 1
            z_n := ends.z_ne + 1
            r_n := ends.r_ne + 1
            alpha := ends.alphae + 1
            gammaa := ends.gammae + 1 }
        else sv }

/-! ## Concrete values used to exercise the definitions -/

/-- A concrete trajectory state used to exercise the derivative functions. -/
def yW : CylState := { r := 1, vr := 2, z := 3, vz := 4, phi := 5, vphi := 6 }

/-- A concrete magnetic-field sample used to exercise the derivative
functions. -/
def bW : BFieldVals := { Br := 7, Bphi := 8, Bz := 9, dBdr := 10, dBdphi := 11, dBdz := 12 }

/-- A concrete electric-field sample used to exercise the derivative
functions. -/
def eW : EFieldVals := { Er := 13, Ephi := 14, Ez := 15 }

/-- Brute-force parameters with threshold `BFTargetB = 1`, `flipspin` off,
and trivial stand-ins for the external routines. -/
def bfTrivParams : BFParams :=
  { BFTargetB := 1
    flipspin := false
    spinOut := false
    M := 1
    cylKart := fun _ _ _ _ => (0, 0, 0)
    blochPol := fun _ _ => 0
    blochKount := fun _ _ => 0
    rng := fun _ => 0 }

/-- Brute-force parameters with `flipspin` on. -/
def bfFlipParams : BFParams :=
  { BFTargetB := 1
    flipspin := true
    spinOut := false
    M := 1
    cylKart := fun _ _ _ _ => (0, 0, 0)
    blochPol := fun _ _ => 0
    blochKount := fun _ _ => 0
    rng := fun _ => 0 }

/-- A zero buffer entry. -/
def bfEntry0 : BFEntry := { t := 0, Bx := 0, By := 0, Bz := 0, r := 0, z := 0 }

/-- A brute-force state holding five buffered values (`offset = 5`) whose
previous step had a large field minimum. -/
def bfStateOffset5 : BFState :=
  { BFPolmin := false
    BFBmin := 10
    BFpol := 1 / 2
    BFsurvprob := 1
    BFflipprob := 0
    hfs := 1
    mu_n := 0
    mumB := 0
    NSF := 0
    firstint := false
    offset := 5
    buffer := [bfEntry0, bfEntry0, bfEntry0, bfEntry0, bfEntry0]
    BFZeilencount := 0
    rngIdx := 0 }

/-- A brute-force state whose previous step had its field minimum below the
threshold. -/
def bfStateLow : BFState :=
  { BFPolmin := true
    BFBmin := 0
    BFpol := 1 / 2
    BFsurvprob := 1
    BFflipprob := 0
    hfs := 1
    mu_n := 0
    mumB := 0
    NSF := 0
    firstint := false
    offset := 0
    buffer := []
    BFZeilencount := 0
    rngIdx := 0 }

/-- A dense sample with field magnitude 2, above the threshold of the
concrete parameter sets. -/
def bfSampleHigh : BFSample :=
  { t := 0, Br := 0, Bphi := 0, Bz := 2, Babs := 2, r := 0, z := 0, phi := 0 }

/-- A dense sample with field magnitude 0, below the threshold of the
concrete parameter sets. -/
def bfSampleLow : BFSample :=
  { t := 0, Br := 0, Bphi := 0, Bz := 0, Babs := 0, r := 0, z := 0, phi := 0 }

/-- Concrete scan variables: a neutron started at `z = 1` with zero total
energy. -/
def scanW : ScanVars := { Energie := 0, z_n := 1, r_n := 0, alpha := 0, gammaa := 0, phi_n := 0 }

/-- Concrete scan end values whose `phie` strictly exceeds `scanW.phi_n`. -/
def endsW : ScanEnds := { EnergieE := 0, z_ne := 0, r_ne := 0, alphae := 0, gammae := 0, phie := 1 }

/-! ## Theorems -/

/-- C1: for every neutron state with `r > 0`, the neutron branch of `derivs`
computes the acceleration as the gradient of the magnetic potential per unit
mass plus gravity in cylindrical coordinates:
`d(dr/dt)/dt = r*(dphi/dt)^2 + (mu_n/m)*dBdr`,
`d(dz/dt)/dt = (mu_n/m)*dBdz - g`, and
`d(dphi/dt)/dt = -2*(dr/dt)*(dphi/dt)/r + (mu_n/m)*(1/r^2)*dBdphi`, with the
sign of `mu_n = hfs * mu_nSI / ele_e` set by the discrete spin state
`hfs ∈ {+1, -1, 0}`. -/
theorem claim_C1 (hfs : ℤ) (M : ℚ) (B : BFieldVals) (y : CylState)
    (hr : 0 < y.r) (hhfs : hfs = 1 ∨ hfs = -1 ∨ hfs = 0) :
    (derivsNeutron (mumB_of hfs M) B y).dvr
        = y.r * y.vphi ^ 2 + mu_n_of hfs / M * B.dBdr
    ∧ (derivsNeutron (mumB_of hfs M) B y).dvz
        = mu_n_of hfs / M * B.dBdz - gravconst
    ∧ (derivsNeutron (mumB_of hfs M) B y).dvphi
        = -2 * y.vr * y.vphi / y.r + mu_n_of hfs / M * (1 / y.r ^ 2) * B.dBdphi
    ∧ (derivsNeutron (mumB_of hfs M) B y).dr = y.vr
    ∧ (derivsNeutron (mumB_of hfs M) B y).dz = y.vz
    ∧ (derivsNeutron (mumB_of hfs M) B y).dphi = y.vphi := by
  have hr0 : y.r ≠ 0 := ne_of_gt hr
  refine ⟨?_, rfl, ?_, rfl, rfl, rfl⟩
  · show y.r * (y.vphi * y.vphi) + mumB_of hfs M * B.dBdr = _
    rw [mumB_of]; ring
  · show -2 * y.vr * y.vphi / y.r + mumB_of hfs M / y.r * B.dBdphi / y.r = _
    rw [mumB_of]; field_simp; ring

/-- Witness for C1 at a concrete state with `r = 1` and `hfs = 1`. -/
theorem claim_C1_witness :
    ((0 : ℚ) < yW.r ∧ ((1 : ℤ) = 1 ∨ (1 : ℤ) = -1 ∨ (1 : ℤ) = 0))
    ∧ ((derivsNeutron (mumB_of 1 1) bW yW).dvr
          = yW.r * yW.vphi ^ 2 + mu_n_of 1 / 1 * bW.dBdr
      ∧ (derivsNeutron (mumB_of 1 1) bW yW).dvz
          = mu_n_of 1 / 1 * bW.dBdz - gravconst
      ∧ (derivsNeutron (mumB_of 1 1) bW yW).dvphi
          = -2 * yW.vr * yW.vphi / yW.r + mu_n_of 1 / 1 * (1 / yW.r ^ 2) * bW.dBdphi
      ∧ (derivsNeutron (mumB_of 1 1) bW yW).dr = yW.vr
      ∧ (derivsNeutron (mumB_of 1 1) bW yW).dz = yW.vz
      ∧ (derivsNeutron (mumB_of 1 1) bW yW).dphi = yW.vphi) :=
  ⟨⟨by norm_num [yW], Or.inl rfl⟩,
   claim_C1 1 1 bW yW (by norm_num [yW]) (Or.inl rfl)⟩

/-- C5: in `derivs`, protons and electrons both follow the Lorentz-force
equations of motion in cylindrical coordinates with acceleration terms
`Qm0*(E + v × B)`; for protons `Qm0` is the constant non-relativistic
charge-to-mass ratio `ele_e / m_p`, while for electrons `Qm0` is recomputed at
every evaluation as `-(1/M)*sqrt(1 - |v|^2/c^2)` — the charge-to-mass ratio
scaled by `1/gamma`, with `gamma` recomputed from the current speed
`|v|^2 = vr^2 + r^2*vphi^2 + vz^2`. -/
theorem claim_C5 (sqrtF : ℚ → ℚ) (M : ℚ) (B : BFieldVals) (E : EFieldVals)
    (y : CylState) (hr : 0 < y.r) :
    ((derivsProton B E y).dvr
        = y.r * y.vphi ^ 2 + Qm0_proton * (E.Er + specCrossR y B)
    ∧ (derivsProton B E y).dvz = Qm0_proton * (E.Ez + specCrossZ y B)
    ∧ (derivsProton B E y).dvphi
        = -2 * y.vr * y.vphi / y.r + Qm0_proton * (E.Ephi + specCrossPhi y B) / y.r)
    ∧ ((derivsElectron sqrtF M B E y).dvr
        = y.r * y.vphi ^ 2 + electronQm0 sqrtF M y * (E.Er + specCrossR y B)
    ∧ (derivsElectron sqrtF M B E y).dvz
        = electronQm0 sqrtF M y * (E.Ez + specCrossZ y B)
    ∧ (derivsElectron sqrtF M B E y).dvphi
        = -2 * y.vr * y.vphi / y.r
            + electronQm0 sqrtF M y * (E.Ephi + specCrossPhi y B) / y.r)
    ∧ Qm0_proton = ele_e / m_pSIkg
    ∧ electronQm0 sqrtF M y
        = (-1 / M) / (1 / sqrtF (1 - speedSq y / (c_0 * c_0))) := by
  refine ⟨⟨?_, ?_, ?_⟩, ⟨?_, ?_, ?_⟩, rfl, ?_⟩
  · show y.r * (y.vphi * y.vphi) + Qm0_proton * _ = _
    rw [specCrossR]; ring
  · show Qm0_proton * _ = _
    rw [specCrossZ]; ring
  · show -2 * y.vr * y.vphi / y.r + Qm0_proton * _ / y.r = _
    rw [specCrossPhi]; ring_nf
  · show y.r * (y.vphi * y.vphi) + electronQm0 sqrtF M y * _ = _
    rw [specCrossR]; ring
  · show electronQm0 sqrtF M y * _ = _
    rw [specCrossZ]; ring
  · show -2 * y.vr * y.vphi / y.r + electronQm0 sqrtF M y * _ / y.r = _
    rw [specCrossPhi]; ring_nf
  · rw [electronQm0, one_div, div_inv_eq_mul]

/-- Witness for C5 at a concrete state with `r = 1`. -/
theorem claim_C5_witness :
    ((0 : ℚ) < yW.r)
    ∧ (((derivsProton bW eW yW).dvr
          = yW.r * yW.vphi ^ 2 + Qm0_proton * (eW.Er + specCrossR yW bW)
      ∧ (derivsProton bW eW yW).dvz = Qm0_proton * (eW.Ez + specCrossZ yW bW)
      ∧ (derivsProton bW eW yW).dvphi
          = -2 * yW.vr * yW.vphi / yW.r
              + Qm0_proton * (eW.Ephi + specCrossPhi yW bW) / yW.r)
    ∧ ((derivsElectron (fun _ => 1) 1 bW eW yW).dvr
          = yW.r * yW.vphi ^ 2
              + electronQm0 (fun _ => 1) 1 yW * (eW.Er + specCrossR yW bW)
      ∧ (derivsElectron (fun _ => 1) 1 bW eW yW).dvz
          = electronQm0 (fun _ => 1) 1 yW * (eW.Ez + specCrossZ yW bW)
      ∧ (derivsElectron (fun _ => 1) 1 bW eW yW).dvphi
          = -2 * yW.vr * yW.vphi / yW.r
              + electronQm0 (fun _ => 1) 1 yW * (eW.Ephi + specCrossPhi yW bW) / yW.r)
    ∧ Qm0_proton = ele_e / m_pSIkg
    ∧ electronQm0 (fun _ => 1) 1 yW
        = (-1 / 1) / (1 / (fun _ : ℚ => (1 : ℚ)) (1 - speedSq yW / (c_0 * c_0)))) :=
  ⟨by norm_num [yW], claim_C5 (fun _ => 1) 1 bW eW yW (by norm_num [yW])⟩

/-- C6 counterexample: the Mersenne-Twister seed in bahnen2005.c depends on
the wall-clock start time — two runs started one second apart with the same
jobnumber are seeded differently, so the claimed time-independence fails. -/
theorem claim_C6_counterexample : bahnenSeed 0 0 ≠ bahnenSeed 1 0 := by decide

/-- C6 (amended): the seed is a deterministic function of start time plus
jobnumber only — runs with equal `time(NULL) + jobnumber` draw from identical
Mersenne-Twister streams; there is no per-particle seeding and no
seed argument. -/
theorem claim_C6_amended (t j t' j' : ℕ) (h : t + j = t' + j') :
    bahnenSeed t j = bahnenSeed t' j' := by
  unfold bahnenSeed; rw [h]

/-- Witness for the amended C6 at `t + j = 1 + 2 = 2 + 1 = t' + j'`. -/
theorem claim_C6_amended_witness :
    (1 + 2 = 2 + 1) ∧ bahnenSeed 1 2 = bahnenSeed 2 1 :=
  ⟨by decide, claim_C6_amended 1 2 2 1 (by decide)⟩

/-- C7: the end-of-run summary of `OutputCodes` prints one line per stop code
with exactly the meanings of the section-7 table — 2 absorbed on a surface,
1 absorbed in the bulk of a material, 0 not categorized, -1 out of simulation
time, -2 left the outer bounding box, -3 integration error, -4 neutron
decayed (with `tau = 885.7` s), -5 no valid initial position, -6 CGAL
predicate failure, -7 other geometry error — negative codes being error-like
and non-negative codes physical terminations. -/
theorem claim_C7 :
    outputCodesTable.map (fun p => (p.1, kindOfMessage p.2))
        = specStopTable.map (fun p => (p.1, some p.2))
    ∧ (∀ p ∈ specStopTable, p.1 < 0 ↔ errorLike p.2 = true)
    ∧ tauNeutron = 8857 / 10 := by
  refine ⟨by decide, by decide, rfl⟩

/-- Cauchy-Schwarz bound for the polarisation projection: with a half-length
spin vector and `babs` the square root of the squared field magnitude, the
projection lies in `[-1/2, 1/2]`. -/
theorem BFpolProjection_bounds (Ix Iy Iz Bx By Bz babs : ℚ)
    (hb : babs * babs = Bx ^ 2 + By ^ 2 + Bz ^ 2) (hbnn : 0 ≤ babs)
    (hI : Ix ^ 2 + Iy ^ 2 + Iz ^ 2 = 1 / 4) :
    -(1 / 2) ≤ BFpolProjection Ix Iy Iz Bx By Bz babs
    ∧ BFpolProjection Ix Iy Iz Bx By Bz babs ≤ 1 / 2 := by
  rcases eq_or_lt_of_le hbnn with h0 | hpos
  · rw [BFpolProjection, ← h0, div_zero]
    norm_num
  · have key : (Ix * Bx + Iy * By + Iz * Bz) ^ 2 ≤ 1 / 4 * (babs * babs) := by
      nlinarith [sq_nonneg (Ix * By - Iy * Bx), sq_nonneg (Ix * Bz - Iz * Bx),
        sq_nonneg (Iy * Bz - Iz * By)]
    constructor
    · rw [BFpolProjection, le_div_iff hpos]
      nlinarith [key, mul_pos hpos hpos,
        sq_nonneg (Ix * Bx + Iy * By + Iz * Bz + 1 / 2 * babs)]
    · rw [BFpolProjection, div_le_iff hpos]
      nlinarith [key, mul_pos hpos hpos,
        sq_nonneg (Ix * Bx + Iy * By + Iz * Bz - 1 / 2 * babs)]

/-- C2: after a completed buffered Bloch-integration segment — at the step
where the field minimum has risen back above `BFTargetB` right after a
below-threshold step — the accumulated non-flip probability is multiplied by
the normalized projection mapped to `[0,1]`
(`BFsurvprob ← (BFpol + 0.5) * BFsurvprob`), the flip probability is
maintained as `BFflipprob = 1 - BFsurvprob`, and the polarisation projection
`BFpol = I·B/|B|` computed with the half-length spin vector lies in
`[-1/2, 1/2]`. -/
theorem claim_C2 (P : BFParams) (s : BFState) (samples : List BFSample)
    (hmin : minB samples > P.BFTargetB) (hpol : s.BFBmin < P.BFTargetB)
    (Ix Iy Iz Bx By Bz babs : ℚ)
    (hb : babs * babs = Bx ^ 2 + By ^ 2 + Bz ^ 2) (hbnn : 0 ≤ babs)
    (hI : Ix ^ 2 + Iy ^ 2 + Iz ^ 2 = 1 / 4) :
    (bruteForceStep P s samples).1.BFsurvprob = (s.BFpol + 1 / 2) * s.BFsurvprob
    ∧ (bruteForceStep P s samples).1.BFflipprob
        = 1 - (bruteForceStep P s samples).1.BFsurvprob
    ∧ -(1 / 2) ≤ BFpolProjection Ix Iy Iz Bx By Bz babs
    ∧ BFpolProjection Ix Iy Iz Bx By Bz babs ≤ 1 / 2 := by
  have hcond : minB samples > P.BFTargetB ∧ (decide (s.BFBmin < P.BFTargetB)) = true :=
    ⟨hmin, decide_eq_true hpol⟩
  refine ⟨?_, ?_, (BFpolProjection_bounds Ix Iy Iz Bx By Bz babs hb hbnn hI).1,
    (BFpolProjection_bounds Ix Iy Iz Bx By Bz babs hb hbnn hI).2⟩
  · simp only [bruteForceStep]
    rw [if_pos hcond]
  · simp only [bruteForceStep]
    rw [if_pos hcond]

/-- Witness for C2: a step whose minimum (2) exceeds the threshold 1 after a
step with minimum 0 below it, and a concrete half-length spin with a concrete
field. -/
theorem claim_C2_witness :
    (minB [bfSampleHigh] > bfTrivParams.BFTargetB
      ∧ bfStateLow.BFBmin < bfTrivParams.BFTargetB
      ∧ (1 : ℚ) * 1 = 1 ^ 2 + 0 ^ 2 + 0 ^ 2
      ∧ (0 : ℚ) ≤ 1
      ∧ (1 / 2 : ℚ) ^ 2 + 0 ^ 2 + 0 ^ 2 = 1 / 4)
    ∧ ((bruteForceStep bfTrivParams bfStateLow [bfSampleHigh]).1.BFsurvprob
          = (bfStateLow.BFpol + 1 / 2) * bfStateLow.BFsurvprob
      ∧ (bruteForceStep bfTrivParams bfStateLow [bfSampleHigh]).1.BFflipprob
          = 1 - (bruteForceStep bfTrivParams bfStateLow [bfSampleHigh]).1.BFsurvprob
      ∧ -(1 / 2) ≤ BFpolProjection (1 / 2) 0 0 1 0 0 1
      ∧ BFpolProjection (1 / 2) 0 0 1 0 0 1 ≤ 1 / 2) :=
  ⟨⟨by decide, by decide, by norm_num, by norm_num, by norm_num⟩,
   claim_C2 bfTrivParams bfStateLow [bfSampleHigh] (by decide) (by decide)
     (1 / 2) 0 0 1 0 0 1 (by norm_num) (by norm_num) (by norm_num)⟩

/-- C3 counterexample: with five buffered values and a step whose field
minimum (2) is back above the threshold 1, the code performs no Bloch
integration — refuting the claim that integration happens exactly when the
minimum has returned to at least `BFTargetB` or the buffer exceeds its cap. -/
theorem claim_C3_counterexample :
    minB [bfSampleHigh] ≥ bfTrivParams.BFTargetB
    ∧ bfStateOffset5.offset < 2000
    ∧ (bruteForceStep bfTrivParams bfStateOffset5 [bfSampleHigh]).2.integrated
        = false := by
  decide

/-- C3 (amended): dense samples are appended to the Bloch buffer exactly when
the step's field minimum falls below `BFTargetB`, and the Bloch equation is
integrated exactly when either (a) the minimum is at least `BFTargetB` AND at
least 10 values are buffered after the appending phase, or (b) at least 2000
values are buffered; in particular, while the minimum stays below `BFTargetB`
and the buffer is under the 2000 cap, no integration is performed. -/
theorem claim_C3_amended (P : BFParams) (s : BFState) (samples : List BFSample) :
    ((bruteForceStep P s samples).2.appended = true ↔ minB samples < P.BFTargetB)
    ∧ ((bruteForceStep P s samples).2.integrated = true ↔
        ((minB samples ≥ P.BFTargetB ∧ bfOffsetAfterAppend P s samples ≥ 10)
          ∨ bfOffsetAfterAppend P s samples ≥ 2000))
    ∧ (minB samples < P.BFTargetB → bfOffsetAfterAppend P s samples < 2000 →
        (bruteForceStep P s samples).2.integrated = false) := by
  refine ⟨?_, ?_, ?_⟩
  · simp only [bruteForceStep, decide_eq_true_eq]
  · simp only [bruteForceStep, decide_eq_true_eq]
  · intro hlow hcap
    simp only [bruteForceStep, decide_eq_false_iff_not]
    rintro (⟨hge, _⟩ | hbig)
    · exact absurd hlow (not_lt.mpr hge)
    · exact absurd hbig (not_le.mpr hcap)

/-- Witness for the amended C3: a below-threshold step with a small buffer
performs no integration. -/
theorem claim_C3_amended_witness :
    minB [bfSampleLow] < bfTrivParams.BFTargetB
    ∧ bfOffsetAfterAppend bfTrivParams bfStateLow [bfSampleLow] < 2000
    ∧ (bruteForceStep bfTrivParams bfStateLow [bfSampleLow]).2.integrated = false :=
  ⟨by decide, by decide,
   (claim_C3_amended bfTrivParams bfStateLow [bfSampleLow]).2.2 (by decide) (by decide)⟩

/-- C4: when `flipspin` is set, at the accumulation point following a
completed Bloch segment the discrete spin label is actually flipped — `hfs`
negated, `mu_n` and `mumB` recomputed from the new `hfs`, the counter `NSF`
incremented — if and only if a freshly drawn random number is below
`1 - (BFpol + 0.5)`; when `flipspin` is unset the discrete label, `mu_n`,
`mumB` and `NSF` are never changed. -/
theorem claim_C4 (P : BFParams) (s : BFState) (samples : List BFSample)
    (hmin : minB samples > P.BFTargetB) (hpol : s.BFBmin < P.BFTargetB) :
    (P.flipspin = true →
      (((bruteForceStep P s samples).1.hfs = -s.hfs
        ∧ (bruteForceStep P s samples).1.NSF = s.NSF + 1
        ∧ (bruteForceStep P s samples).1.mu_n = mu_n_of (-s.hfs)
        ∧ (bruteForceStep P s samples).1.mumB = mu_n_of (-s.hfs) / P.M)
        ↔ P.rng (s.rngIdx + 1) < 1 - (s.BFpol + 1 / 2)))
    ∧ (P.flipspin = false →
        (bruteForceStep P s samples).1.hfs = s.hfs
        ∧ (bruteForceStep P s samples).1.NSF = s.NSF
        ∧ (bruteForceStep P s samples).1.mu_n = s.mu_n
        ∧ (bruteForceStep P s samples).1.mumB = s.mumB) := by
  have hacc : minB samples > P.BFTargetB ∧ (decide (s.BFBmin < P.BFTargetB)) = true :=
    ⟨hmin, decide_eq_true hpol⟩
  constructor
  · intro hf
    by_cases hd : P.rng (s.rngIdx + 1) < 1 - (s.BFpol + 1 / 2)
    · have hC : (minB samples > P.BFTargetB ∧ (decide (s.BFBmin < P.BFTargetB)) = true)
          ∧ P.flipspin = true ∧ P.rng (s.rngIdx + 1) < 1 - (s.BFpol + 1 / 2) :=
        ⟨hacc, hf, hd⟩
      simp only [bruteForceStep, if_pos hC, mu_n_of]
      refine iff_of_true ?_ hd
      simp
    · have hC : ¬ ((minB samples > P.BFTargetB ∧ (decide (s.BFBmin < P.BFTargetB)) = true)
          ∧ P.flipspin = true ∧ P.rng (s.rngIdx + 1) < 1 - (s.BFpol + 1 / 2)) :=
        fun h => hd h.2.2
      simp only [bruteForceStep, if_neg hC]
      refine iff_of_false (fun h => ?_) hd
      exact Nat.succ_ne_self s.NSF (h.2.1.symm.trans rfl)
  · intro hf
    have hC : ¬ ((minB samples > P.BFTargetB ∧ (decide (s.BFBmin < P.BFTargetB)) = true)
        ∧ P.flipspin = true ∧ P.rng (s.rngIdx + 1) < 1 - (s.BFpol + 1 / 2)) :=
      fun h => by rw [hf] at h; exact Bool.false_ne_true h.2.1
    simp only [bruteForceStep, if_neg hC]
    simp

/-- Witness for C4: with `flipspin` on, a draw of 0 against the threshold
`1 - (1/2 + 1/2) = 0` does not flip the spin. -/
theorem claim_C4_witness :
    (minB [bfSampleHigh] > bfFlipParams.BFTargetB
      ∧ bfStateLow.BFBmin < bfFlipParams.BFTargetB)
    ∧ ((bfFlipParams.flipspin = true →
        (((bruteForceStep bfFlipParams bfStateLow [bfSampleHigh]).1.hfs
            = -bfStateLow.hfs
          ∧ (bruteForceStep bfFlipParams bfStateLow [bfSampleHigh]).1.NSF
              = bfStateLow.NSF + 1
          ∧ (bruteForceStep bfFlipParams bfStateLow [bfSampleHigh]).1.mu_n
              = mu_n_of (-bfStateLow.hfs)
          ∧ (bruteForceStep bfFlipParams bfStateLow [bfSampleHigh]).1.mumB
              = mu_n_of (-bfStateLow.hfs) / bfFlipParams.M)
          ↔ bfFlipParams.rng (bfStateLow.rngIdx + 1)
              < 1 - (bfStateLow.BFpol + 1 / 2)))
      ∧ (bfFlipParams.flipspin = false →
          (bruteForceStep bfFlipParams bfStateLow [bfSampleHigh]).1.hfs
              = bfStateLow.hfs
          ∧ (bruteForceStep bfFlipParams bfStateLow [bfSampleHigh]).1.NSF
              = bfStateLow.NSF
          ∧ (bruteForceStep bfFlipParams bfStateLow [bfSampleHigh]).1.mu_n
              = bfStateLow.mu_n
          ∧ (bruteForceStep bfFlipParams bfStateLow [bfSampleHigh]).1.mumB
              = bfStateLow.mumB)) :=
  ⟨⟨by decide, by decide⟩,
   claim_C4 bfFlipParams bfStateLow [bfSampleHigh] (by decide) (by decide)⟩

/-- C9: the track file rolls to a new sequentially numbered file with a fresh
header and reset counter exactly when its row counter exceeds 40000; the BF
spin log rolls likewise exactly when its row counter exceeds 100000 in
brute-force mode; and BF rows are written only inside Bloch-integration
windows. -/
theorem claim_C9 :
    (∀ z f : ℤ, ((trackRoll z f).2.2 = true ↔ z > 40000)
      ∧ (z > 40000 → trackRoll z f = (1, f + 1, true))
      ∧ (¬ z > 40000 → trackRoll z f = (z, f, false)))
    ∧ (∀ (bf : Bool) (z f : ℤ),
        ((bfRoll bf z f).2.2 = true ↔ (z > 100000 ∧ bf = true))
      ∧ ((z > 100000 ∧ bf = true) → bfRoll bf z f = (1, f + 1, true))
      ∧ (¬ (z > 100000 ∧ bf = true) → bfRoll bf z f = (z, f, false)))
    ∧ (∀ (P : BFParams) (s : BFState) (samples : List BFSample),
        0 < (bruteForceStep P s samples).2.bfRows →
          (bruteForceStep P s samples).2.integrated = true) := by
  refine ⟨?_, ?_, ?_⟩
  · intro z f
    refine ⟨?_, fun h => if_pos h, fun h => if_neg h⟩
    unfold trackRoll
    split_ifs with h
    · simpa using h
    · simpa using h
  · intro bf z f
    refine ⟨?_, fun h => if_pos h, fun h => if_neg h⟩
    unfold bfRoll
    split_ifs with h
    · simpa using h
    · simpa using h
  · intro P s samples h
    by_cases hI : ((minB samples ≥ P.BFTargetB ∧ bfOffsetAfterAppend P s samples ≥ 10)
        ∨ bfOffsetAfterAppend P s samples ≥ 2000)
    · simp only [bruteForceStep]
      exact decide_eq_true hI
    · exfalso
      have hC : ¬ (((minB samples ≥ P.BFTargetB ∧ bfOffsetAfterAppend P s samples ≥ 10)
          ∨ bfOffsetAfterAppend P s samples ≥ 2000) ∧ P.spinOut = true) :=
        fun hc => hI hc.1
      simp only [bruteForceStep, if_neg hC] at h
      exact absurd h (lt_irrefl 0)

/-- Witness for C9 at row counters just past the two thresholds. -/
theorem claim_C9_witness :
    trackRoll 40001 1 = (1, 2, true) ∧ bfRoll true 100001 1 = (1, 2, true) :=
  ⟨(claim_C9.1 40001 1).2.1 (by decide), (claim_C9.2.1 true 100001 1).2.1 (by decide)⟩

/-- C8: the program accepts up to four positional, all-optional command-line
arguments `[jobnumber [inpath [outpath [seed]]]]` with defaults
`(0, "./in", "./out", time-based seed)` — the zero default seed being replaced
by the wall clock (spec-modelled `TMCGenerator` behaviour); a first argument
`-h` yields the usage message with exit code 0; a completed run exits with 0
and the fatal-error exits use nonzero values. -/
theorem claim_C8 (readInt : String → ℤ) (readU64 : String → ℕ) (t : ℕ)
    (a b c d : String) (ha : a ≠ "-h") (rest : List String) :
    parseCli readInt readU64 [] = .run 0 "./in" "./out" 0
    ∧ resolveSeed 0 t = t
    ∧ parseCli readInt readU64 [a] = .run (readInt a) "./in" "./out" 0
    ∧ parseCli readInt readU64 [a, b] = .run (readInt a) b "./out" 0
    ∧ parseCli readInt readU64 [a, b, c] = .run (readInt a) b c 0
    ∧ parseCli readInt readU64 [a, b, c, d] = .run (readInt a) b c (readU64 d)
    ∧ parseCli readInt readU64 ("-h" :: rest) = .usage
    ∧ cliExitCode .usage = 0
    ∧ cliExitCode (.run 0 "./in" "./out" 0) = 0
    ∧ (∀ e ∈ fatalExitValues, e ≠ 0) := by
  refine ⟨rfl, rfl, ?_, ?_, ?_, ?_, ?_, rfl, rfl, by decide⟩
  all_goals simp [parseCli, ha]

/-- Witness for C8 with a concrete argument vector. -/
theorem claim_C8_witness :
    ("3" ≠ "-h")
    ∧ (parseCli (fun _ => 7) (fun _ => 9) [] = .run 0 "./in" "./out" 0
      ∧ resolveSeed 0 11 = 11
      ∧ parseCli (fun _ => 7) (fun _ => 9) ["3"]
          = .run ((fun _ : String => (7 : ℤ)) "3") "./in" "./out" 0
      ∧ parseCli (fun _ => 7) (fun _ => 9) ["3", "in2"]
          = .run ((fun _ : String => (7 : ℤ)) "3") "in2" "./out" 0
      ∧ parseCli (fun _ => 7) (fun _ => 9) ["3", "in2", "out2"]
          = .run ((fun _ : String => (7 : ℤ)) "3") "in2" "out2" 0
      ∧ parseCli (fun _ => 7) (fun _ => 9) ["3", "in2", "out2", "42"]
          = .run ((fun _ : String => (7 : ℤ)) "3") "in2" "out2"
              ((fun _ : String => (9 : ℕ)) "42")
      ∧ parseCli (fun _ => 7) (fun _ => 9) ("-h" :: ["x"]) = .usage
      ∧ cliExitCode .usage = 0
      ∧ cliExitCode (.run 0 "./in" "./out" 0) = 0
      ∧ (∀ e ∈ fatalExitValues, e ≠ 0)) :=
  ⟨by decide, claim_C8 (fun _ => 7) (fun _ => 9) 11 "3" "in2" "out2" "42" (by decide) ["x"]⟩

/-- C10 counterexample: at a concrete start with negative initial kinetic
energy in Monte Carlo mode, `IntegrateParticle` returns early but does NOT
force the innermost scan variable `phi_n` past its end value `phie`, so the
phi scan loop is not terminated — refuting the claim that all the
parameter-scan loop variables are forced past their end values. -/
theorem claim_C10_counterexample :
    neutronEkin 1 0 scanW.Energie scanW.z_n 0 < 0
    ∧ (neutronStartCheck (fun _ => 0) 1 0 true 3 scanW endsW 0).earlyReturn = true
    ∧ ¬ ((neutronStartCheck (fun _ => 0) 1 0 true 3 scanW endsW 0).scan.phi_n
          > endsW.phie) := by
  have hE : neutronEkin 1 0 scanW.Energie scanW.z_n 0 < 0 := by
    norm_num [neutronEkin, gravconst, scanW]
  refine ⟨hE, ?_, ?_⟩
  · simp only [neutronStartCheck, if_neg (not_le.mpr hE)]
  · simp only [neutronStartCheck, if_neg (not_le.mpr hE)]
    norm_num [scanW, endsW]

/-- C10 (amended): for a neutron whose initial kinetic energy
`Ekin = Energie - M*g*z + mu_n*|B|` is negative, `IntegrateParticle` sets the
velocity to zero and the stop flag, sets `ausgabewunsch` to 5, returns before
any integration step, writes no end-log record, and in Monte Carlo mode
forces the scan variables `Energie`, `z_n`, `r_n`, `alpha` and `gammaa` past
their end values while leaving the innermost variable `phi_n` unchanged. -/
theorem claim_C10_amended (sqrtF : ℚ → ℚ) (M mu_n : ℚ) (mc : Bool) (aws : ℤ)
    (sv : ScanVars) (ends : ScanEnds) (Bws : ℚ)
    (h : neutronEkin M mu_n sv.Energie sv.z_n Bws < 0) :
    (neutronStartCheck sqrtF M mu_n mc aws sv ends Bws).v_n = 0
    ∧ (neutronStartCheck sqrtF M mu_n mc aws sv ends Bws).stopall = true
    ∧ (neutronStartCheck sqrtF M mu_n mc aws sv ends Bws).earlyReturn = true
    ∧ (neutronStartCheck sqrtF M mu_n mc aws sv ends Bws).endlogWritten = false
    ∧ (neutronStartCheck sqrtF M mu_n mc aws sv ends Bws).ausgabewunsch = 5
    ∧ (mc = true →
        (neutronStartCheck sqrtF M mu_n mc aws sv ends Bws).scan.Energie
            > ends.EnergieE
        ∧ (neutronStartCheck sqrtF M mu_n mc aws sv ends Bws).scan.z_n > ends.z_ne
        ∧ (neutronStartCheck sqrtF M mu_n mc aws sv ends Bws).scan.r_n > ends.r_ne
        ∧ (neutronStartCheck sqrtF M mu_n mc aws sv ends Bws).scan.alpha > ends.alphae
        ∧ (neutronStartCheck sqrtF M mu_n mc aws sv ends Bws).scan.gammaa > ends.gammae
        ∧ (neutronStartCheck sqrtF M mu_n mc aws sv ends Bws).scan.phi_n = sv.phi_n)
    ∧ (mc = false →
        (neutronStartCheck sqrtF M mu_n mc aws sv ends Bws).scan = sv) := by
  simp only [neutronStartCheck, if_neg (not_le.mpr h)]
  refine ⟨trivial, trivial, trivial, trivial, trivial, fun hmc => ?_, fun hmc => ?_⟩
  · subst hmc
    simp only [if_pos rfl]
    refine ⟨?_, ?_, ?_, ?_, ?_, rfl⟩
    all_goals norm_num
  · subst hmc
    simp

/-- Witness for the amended C10 at the concrete negative-energy start. -/
theorem claim_C10_amended_witness :
    (neutronEkin 1 0 scanW.Energie scanW.z_n 0 < 0)
    ∧ ((neutronStartCheck (fun _ => 0) 1 0 true 3 scanW endsW 0).v_n = 0
      ∧ (neutronStartCheck (fun _ => 0) 1 0 true 3 scanW endsW 0).stopall = true
      ∧ (neutronStartCheck (fun _ => 0) 1 0 true 3 scanW endsW 0).earlyReturn = true
      ∧ (neutronStartCheck (fun _ => 0) 1 0 true 3 scanW endsW 0).endlogWritten = false
      ∧ (neutronStartCheck (fun _ => 0) 1 0 true 3 scanW endsW 0).ausgabewunsch = 5
      ∧ (true = true →
          (neutronStartCheck (fun _ => 0) 1 0 true 3 scanW endsW 0).scan.Energie
              > endsW.EnergieE
          ∧ (neutronStartCheck (fun _ => 0) 1 0 true 3 scanW endsW 0).scan.z_n
              > endsW.z_ne
          ∧ (neutronStartCheck (fun _ => 0) 1 0 true 3 scanW endsW 0).scan.r_n
              > endsW.r_ne
          ∧ (neutronStartCheck (fun _ => 0) 1 0 true 3 scanW endsW 0).scan.alpha
              > endsW.alphae
          ∧ (neutronStartCheck (fun _ => 0) 1 0 true 3 scanW endsW 0).scan.gammaa
              > endsW.gammae
          ∧ (neutronStartCheck (fun _ => 0) 1 0 true 3 scanW endsW 0).scan.phi_n
              = scanW.phi_n)
      ∧ (true = false →
          (neutronStartCheck (fun _ => 0) 1 0 true 3 scanW endsW 0).scan = scanW)) :=
  ⟨by norm_num [neutronEkin, gravconst, scanW],
   claim_C10_amended (fun _ => 0) 1 0 true 3 scanW endsW 0
     (by norm_num [neutronEkin, gravconst, scanW])⟩

end PENTrack
